import Mathlib

/-!
Shallow embedding of `build-system/tasks/runtime-test.js` (the gulp `test`
task of the amphtml build system).

The file under verification is configuration-assembly glue: it reads
`minimist` flags, builds a Karma configuration, selects the test file list,
optionally patches two build outputs, and hands off to the Karma runner.
We embed, as pure Lean functions of the flags and of the external world:

* `getConfig`   — lines 48–93 (browser / Sauce Labs configuration);
* `getAdTypes`  — lines 95–125 (ad-type enumeration from a directory scan);
* `applyAmpConfig` — lines 184–196 (config patching, as an action trace);
* `runTestsSelect` — lines 201–277 of `runTests`: everything that decides
  the final value of `c.files` and whether the run aborts before Karma is
  started.  The later statements of `runTests` (lines 279–381: `c.client.amp`,
  `--grep`, `--coverage`, web-server and Karma startup) never touch `c.files`
  and are outside the embedded fragment.

External inputs are explicit parameters: the environment variables, the data
of `../config`, the default Karma configuration from `./karma.conf`, the
result of `glob.sync`, the `shuffle-seed` library's shuffle function, and the
value drawn from `Math.random()`.  JavaScript numbers are modelled as `Rat`
(every `Math.random()` value and every `--seed` value is a rational); the
only number operations the source performs on them are the falsiness test
and string interpolation.
-/

namespace RuntimeTest

/-- The fields of the Karma configuration object that the embedded fragment
reads or writes.  `karma.conf.js` is not part of the repository snippet, so
the default value of the record is a parameter everywhere. -/
structure KarmaConf where
  browsers : List String
  reporters : List String
  files : List String
  singleRun : Bool
  /-- `client.captureConsole` -/
  captureConsole : Bool
deriving Repr, DecidableEq

/-- The `minimist` flags the embedded fragment consults.  `files`, `seed` and
`config` are value-carrying flags (`none` = flag absent); the rest are
booleans.  `w` and `v` are the short aliases the source reads alongside
`watch` and `verbose`. -/
structure Argv where
  safari : Bool := false
  firefox : Bool := false
  edge : Bool := false
  ie : Bool := false
  saucelabs : Bool := false
  saucelabs_lite : Bool := false
  watch : Bool := false
  w : Bool := false
  verbose : Bool := false
  v : Bool := false
  testnames : Bool := false
  integration : Bool := false
  unit : Bool := false
  randomize : Bool := false
  glob : Bool := false
  a4a : Bool := false
  files : Option String := none
  seed : Option Rat := none
deriving Repr, DecidableEq

/-- The environment variables `getConfig` consults (`process.env` values are
strings when set; `none` = unset). -/
structure SauceEnv where
  sauceUsername : Option String := none
  sauceAccessKey : Option String := none
deriving Repr, DecidableEq

/-- The path lists exported by `../config` (not part of the repository
snippet); the embedding takes them as data. -/
structure TestConfig where
  chaiAsPromised : List String := []
  commonTestPaths : List String := []
  integrationTestPaths : List String := []
  unitTestPaths : List String := []
  unitTestOnSaucePaths : List String := []
  a4aTestPaths : List String := []
  basicTestPaths : List String := []
  testPaths : List String := []
  simpleTestPath : List String := []
deriving Repr, DecidableEq

/-- JavaScript truthiness of an optional string value: `undefined` and the
empty string are falsy (`if (argv.files)`, `if (!process.env.SAUCE_USERNAME)`). -/
def strTruthy : Option String → Bool
  | none => false
  | some s => s ≠ ""

theorem strTruthy_none : strTruthy none = false := rfl

/-- `argv.seed || Math.random()` — JavaScript `||` on an optional number:
an absent seed and the number `0` are falsy, so both fall back to the
`Math.random()` draw `r`. -/
def jsOrRat : Option Rat → Rat → Rat
  | none, r => r
  | some s, r => if s = 0 then r else s

/-- The ternary of lines 70–89: the full Sauce Labs browser set with
`--saucelabs`, the chai-as-promised-capable subset with `--saucelabs_lite`. -/
def sauceBrowsers (a : Argv) : List String :=
  if a.saucelabs then
    ["SL_Chrome_android", "SL_Chrome_latest", "SL_Chrome_45",
     "SL_Firefox_latest", "SL_Safari_latest", "SL_Safari_10",
     "SL_Safari_9", "SL_iOS_latest", "SL_iOS_10_0", "SL_iOS_9_1",
     "SL_Edge_latest", "SL_IE_11"]
  else
    ["SL_Safari_latest"]

/-- `getConfig` (lines 48–93).  A thrown `Error` is an `Except.error` carrying
the message.  `Object.assign({}, karmaDefault, {...})` is record update. -/
def getConfig (karmaDefault : KarmaConf) (env : SauceEnv) (a : Argv) :
    Except String KarmaConf :=
  if a.safari then .ok {karmaDefault with browsers := ["Safari"]}
  else if a.firefox then .ok {karmaDefault with browsers := ["Firefox"]}
  else if a.edge then .ok {karmaDefault with browsers := ["Edge"]}
  else if a.ie then .ok {karmaDefault with browsers := ["IE"]}
  else if a.saucelabs || a.saucelabs_lite then
    if !strTruthy env.sauceUsername then
      .error "Missing SAUCE_USERNAME Env variable"
    else if !strTruthy env.sauceAccessKey then
      .error "Missing SAUCE_ACCESS_KEY Env variable"
    else
      .ok {karmaDefault with
        reporters := ["super-dots", "saucelabs", "karmaSimpleReporter"],
        browsers := sauceBrowsers a}
  else .ok karmaDefault

/-- Node `path.extname` restricted to plain file names (no directory
separators): the suffix starting at the last dot, or `""` when there is no
dot or the only role of the dot is to start the name. -/
def extname (f : String) : String :=
  let cs := f.toList
  let tail := cs.reverse.takeWhile (fun c => c ≠ '.')
  if tail.length + 1 < cs.length then String.mk ('.' :: tail.reverse) else ""

/-- Node `path.basename (f, ext)` restricted to plain file names: strips a
trailing `ext` unless the whole name is the extension. -/
def basename (f ext : String) : String :=
  let fc := f.toList
  let ec := ext.toList
  if ec.isSuffixOf fc && ec.length < fc.length then
    String.mk (fc.take (fc.length - ec.length))
  else f

/-- The static `namingExceptions` table of `getAdTypes` (lines 96–103). -/
def namingExceptions : String → Option (List String)
  | "adblade" => some ["adblade", "industrybrains"]
  | "mantis" => some ["mantis-display", "mantis-recommend"]
  | "weborama" => some ["weborama-display"]
  | _ => none

/-- The filter of the `getAdTypes` loop (line 111–112): keep `.js` files whose
name does not start with `_` and is not `ads.extern.js`. -/
def adFileKept (f : String) : Bool :=
  extname f = ".js" && f.front ≠ '_' && f ≠ "ads.extern.js"

/-- The entries one kept file contributes (lines 113–121): the exception
table's expansion when present, otherwise the base name itself. -/
def adExpansion (f : String) : List String :=
  let adType := basename f ".js"
  match namingExceptions adType with
  | some expanded => expanded
  | none => [adType]

/-- `getAdTypes` (lines 95–125) as a function of the directory listing
returned by `fs.readdirSync('./ads/')`. -/
def getAdTypes (files : List String) : List String :=
  files.foldl
    (fun adTypes f => if adFileKept f then adTypes ++ adExpansion f else adTypes)
    ["adsense", "doubleclick"]

/-- JavaScript `Array.prototype.indexOf`: first index of `s`, or `-1`. -/
def jsIndexOf (l : List String) (s : String) : Int :=
  match l.findIdx? (fun y => y == s) with
  | some i => (i : Int)
  | none => -1

/-- JavaScript `arr.splice(start, 1)` (the resulting array): a negative
`start` counts from the end and is clamped at `0`, a `start` past the end
removes nothing, otherwise the element at `start` is removed. -/
def jsSpliceRemoveOne (l : List String) (start : Int) : List String :=
  let s : Nat :=
    if start < 0 then (max ((l.length : Int) + start) 0).toNat
    else min start.toNat l.length
  l.take s ++ l.drop (s + 1)

/-- Line 267: `testFiles.splice(testFiles.indexOf('test/_init_tests.js'), 1)`. -/
def dropInitTests (l : List String) : List String :=
  jsSpliceRemoveOne l (jsIndexOf l "test/_init_tests.js")

/-- The seed the randomize branch actually uses (line 255):
`const seed = argv.seed || Math.random();` with `r` the `Math.random()` draw. -/
def usedSeed (a : Argv) (r : Rat) : Rat :=
  jsOrRat a.seed r

/-- The two log lines of lines 256–263, with `fancy-log` arguments joined by
spaces and colors dropped. -/
def seedLog (seed : Rat) : List String :=
  ["Randomizing: Seeding with value " ++ toString seed,
   "To rerun same ordering, append --seed=" ++ toString seed ++
     " to your invocation of gulp test"]

/-- The external world `runTests` consults: the default Karma configuration,
the `../config` path lists, the environment, `glob.sync`, the shuffle
function of the `shuffle-seed` library (a pure function of list and seed),
and the value `Math.random()` returns on this invocation. -/
structure Ext where
  karmaDefault : KarmaConf
  cfg : TestConfig := {}
  env : SauceEnv := {}
  globSync : String → List String := fun _ => []
  shuffle : List String → Rat → List String := fun l _ => l

/-- Lines 208–218: the `--watch`/`--w`, `--verbose`/`--v` and `--testnames`
mutations of the configuration. -/
def tweakConf (a : Argv) (c : KarmaConf) : KarmaConf :=
  let c1 := if a.watch || a.w then {c with singleRun := false} else c
  let c2 := if a.verbose || a.v then {c1 with captureConsole := true} else c1
  if a.testnames then {c2 with reporters := ["mocha"]} else c2

/-- Line 230: `c.files = argv.saucelabs ? [] : config.chaiAsPromised;`. -/
def chaiBase (x : Ext) (a : Argv) : List String :=
  if a.saucelabs then [] else x.cfg.chaiAsPromised

/-- Lines 247–252: the glob expansion of the a4a or basic test paths,
concatenated in order. -/
def globbedTestFiles (x : Ext) (a : Argv) : List String :=
  (if a.a4a then x.cfg.a4aTestPaths else x.cfg.basicTestPaths).foldl
    (fun acc p => acc ++ x.globSync p) []

/-- Lines 254–265: with `--randomize` or `--a4a` the globbed list is shuffled
with the used seed and the seed is logged; with plain `--glob` it is left
as-is.  Returns the list and the log lines. -/
def randomizedTestFiles (x : Ext) (r : Rat) (a : Argv) :
    List String × List String :=
  if a.randomize || a.a4a then
    (x.shuffle (globbedTestFiles x a) (usedSeed a r), seedLog (usedSeed a r))
  else (globbedTestFiles x a, [])

/-- Lines 230–271: the mutually exclusive file-selection chain.  Starts from
`c.files = argv.saucelabs ? [] : config.chaiAsPromised` and returns the
(possibly updated) configuration, the selected file list, and the log lines
emitted by the randomize branch.  `r` is the `Math.random()` draw. -/
def fileSelection (x : Ext) (r : Rat) (a : Argv) (c : KarmaConf) :
    KarmaConf × List String × List String :=
  let base := chaiBase x a
  if strTruthy a.files then
    let c2 := if !a.saucelabs && !a.saucelabs_lite then
        {c with reporters := ["mocha"]} else c
    (c2, base ++ x.cfg.commonTestPaths ++ a.files.toList, [])
  else if a.integration then
    (c, base ++ x.cfg.integrationTestPaths, [])
  else if a.unit then
    (c, base ++ (if a.saucelabs_lite then x.cfg.unitTestOnSaucePaths
                 else x.cfg.unitTestPaths), [])
  else if a.randomize || a.glob || a.a4a then
    (c, base ++ (x.cfg.commonTestPaths ++
         dropInitTests (randomizedTestFiles x r a).1),
     (randomizedTestFiles x r a).2)
  else
    (c, base ++ x.cfg.testPaths, [])

/-- How the embedded fragment of `runTests` can end:
`threw` — an exception from `getConfig` propagates out of `runTests`;
`exited` — `process.exit()` was called (line 225), with its exit status and
the log lines printed before it;
`ran` — control reaches the Karma startup, with the final configuration
(whose `files` field is the final test file list) and the log lines of the
file-selection step. -/
inductive RunOutcome where
  | threw (msg : String)
  | exited (code : Nat) (errLog : List String)
  | ran (conf : KarmaConf) (log : List String)
deriving Repr, DecidableEq

/-- The log lines of an outcome. -/
def logOf : RunOutcome → List String
  | .threw _ => []
  | .exited _ lg => lg
  | .ran _ lg => lg

/-- The final test file list of an outcome that reached Karma. -/
def filesOf : RunOutcome → List String
  | .ran c _ => c.files
  | _ => []

/-- Lines 275–277: with `--saucelabs` or `--saucelabs_lite` the simple
always-passing test is concatenated onto the file list. -/
def sauceWrap (x : Ext) (a : Argv) (l : List String) : List String :=
  if a.saucelabs || a.saucelabs_lite then l ++ x.cfg.simpleTestPath else l

/-- Lines 201–277 of `runTests`: configuration, the Sauce-Labs-without-
integration abort, file selection, and the Sauce smoke-test append.  Note
that `process.exit()` on line 225 is called without an argument, so the
process exits with the default status `0`. -/
def runTestsSelect (x : Ext) (r : Rat) (a : Argv) : RunOutcome :=
  match getConfig x.karmaDefault x.env a with
  | .error m => .threw m
  | .ok c0 =>
    let c := tweakConf a c0
    if a.saucelabs && !a.integration then
      .exited 0
        ["Only integration tests may be run on the full set of Sauce Labs browsers",
         "Use --saucelabs with --integration"]
    else
      let sel := fileSelection x r a c
      .ran {sel.1 with files := sauceWrap x a sel.2.1} sel.2.2

/-- Line 41: `const ampConfig = (argv.config === 'canary') ? 'canary' : 'prod';`. -/
def ampConfigOf (configFlag : Option String) : String :=
  if configFlag = some "canary" then "canary" else "prod"

/-- The filesystem calls `applyAmpConfig` makes into
`./prepend-global/index.js` (a module outside the repository snippet); the
embedding records the calls, in order, rather than their implementation. -/
inductive ConfigAction where
  | removeConfigCall (target : String)
  | applyConfigCall (cfg target configFile : String)
      (localDev localBranch : Bool)
deriving Repr, DecidableEq

/-- `applyAmpConfig` (lines 184–196) as the ordered trace of filesystem
actions it performs, as a function of `fs.existsSync`.  An empty trace is the
`Promise.resolve()` branch: the run continues with no file touched. -/
def applyAmpConfig (ampConfig : String) (fsExists : String → Bool)
    (targetFile : String) : List ConfigAction :=
  let configFile := "build-system/global-configs/" ++ ampConfig ++ "-config.json"
  if fsExists targetFile then
    [.removeConfigCall targetFile,
     .applyConfigCall ampConfig targetFile configFile true true]
  else []

/-! ### Claim-side formalisations

The definitions below state properties in the spec's terms, to be compared
with the source-side functions above. -/

/-- The five mutually exclusive file-selection modes named by the spec. -/
inductive SelectionMode where
  | explicitFiles
  | integrationSuite
  | unitSuite
  | randomizedSuite
  | defaultSuite
deriving Repr, DecidableEq

/-- The claimed fixed precedence: explicit `--files`, else `--integration`,
else `--unit`, else `--randomize`/`--glob`/`--a4a`, else the default suite. -/
def activeMode (a : Argv) : SelectionMode :=
  if strTruthy a.files then .explicitFiles
  else if a.integration then .integrationSuite
  else if a.unit then .unitSuite
  else if a.randomize || a.glob || a.a4a then .randomizedSuite
  else .defaultSuite

/-- The file list each mode alone dictates (before the Sauce smoke-test
append): the claim is that the mode selected by `activeMode` alone
determines the selected list, whatever the other flags say. -/
def modeFiles (x : Ext) (r : Rat) (a : Argv) : SelectionMode → List String
  | .explicitFiles => chaiBase x a ++ x.cfg.commonTestPaths ++ a.files.toList
  | .integrationSuite => chaiBase x a ++ x.cfg.integrationTestPaths
  | .unitSuite =>
      chaiBase x a ++ (if a.saucelabs_lite then x.cfg.unitTestOnSaucePaths
                       else x.cfg.unitTestPaths)
  | .randomizedSuite =>
      chaiBase x a ++ (x.cfg.commonTestPaths ++
        dropInitTests (randomizedTestFiles x r a).1)
  | .defaultSuite => chaiBase x a ++ x.cfg.testPaths

/-- Whether an invocation reaches the seeded shuffle of line 264: the
configuration step succeeded, the Sauce-Labs abort did not fire, the three
earlier selection modes are inactive, and `--randomize` or `--a4a` is set. -/
def reachesShuffle (x : Ext) (a : Argv) : Bool :=
  (getConfig x.karmaDefault x.env a).toBool &&
    !(a.saucelabs && !a.integration) && !strTruthy a.files &&
    !a.integration && !a.unit && (a.randomize || a.a4a)

/-- A single-browser override flag is set. -/
def browserOverride (a : Argv) : Bool :=
  a.safari || a.firefox || a.edge || a.ie

/-- The browser the highest-priority set override flag selects. -/
def overrideBrowserName (a : Argv) : String :=
  if a.safari then "Safari"
  else if a.firefox then "Firefox"
  else if a.edge then "Edge"
  else "IE"

/-! ### Concrete instances used by witnesses and counterexamples -/

/-- A concrete default Karma configuration standing in for `karma.conf.js`. -/
def kd0 : KarmaConf :=
  { browsers := ["Chrome"], reporters := ["progress"], files := [],
    singleRun := true, captureConsole := false }

/-- A minimal external world. -/
def ext0 : Ext := { karmaDefault := kd0 }

/-! ### Theorems -/

/-- The push-loop of `getAdTypes`, as a fold, appends one expansion per kept
file to whatever the accumulator holds. -/
theorem adTypes_foldl_eq (files : List String) (init : List String) :
    files.foldl
      (fun adTypes f => if adFileKept f then adTypes ++ adExpansion f
                        else adTypes) init
      = init ++ files.flatMap
          (fun f => if adFileKept f then adExpansion f else []) := by
  induction files generalizing init with
  | nil => simp
  | cons f rest ih =>
    by_cases h : adFileKept f <;>
      simp [h, ih, List.flatMap_cons, List.append_assoc]

/-- C4: `getAdTypes` returns `adsense` and `doubleclick` first, followed by,
for each kept `.js` file of the scanned directory (not starting with `_`,
not `ads.extern.js`), either its base name or the expansion the static
exception table assigns to it; in particular a listing containing
`adblade.js` yields both `adblade` and `industrybrains`. -/
theorem getAdTypes_spec (files : List String) :
    getAdTypes files =
      ["adsense", "doubleclick"] ++
        files.flatMap (fun f => if adFileKept f then adExpansion f else []) ∧
    ("adblade.js" ∈ files →
      "adblade" ∈ getAdTypes files ∧ "industrybrains" ∈ getAdTypes files) := by
  have h : getAdTypes files =
      ["adsense", "doubleclick"] ++
        files.flatMap (fun f => if adFileKept f then adExpansion f else []) :=
    adTypes_foldl_eq files ["adsense", "doubleclick"]
  refine ⟨h, fun hm => ⟨?_, ?_⟩⟩ <;>
    · rw [h]
      refine List.mem_append.mpr (Or.inr (List.mem_flatMap.mpr
        ⟨"adblade.js", hm, ?_⟩))
      decide

/-- Witness for C4 at the concrete listing `["adblade.js"]`. -/
theorem getAdTypes_spec_witness :
    "adblade" ∈ getAdTypes ["adblade.js"] ∧
    "industrybrains" ∈ getAdTypes ["adblade.js"] :=
  (getAdTypes_spec ["adblade.js"]).2 (by decide)

/-- C7: when the target file does not exist, `applyAmpConfig` performs no
filesystem action and resolves; when it exists, it first calls
`removeConfig` on the target and then `applyConfig` with the selected
config. -/
theorem applyAmpConfig_spec (ampConfig : String) (fsExists : String → Bool)
    (targetFile : String) :
    (fsExists targetFile = false →
      applyAmpConfig ampConfig fsExists targetFile = []) ∧
    (fsExists targetFile = true →
      applyAmpConfig ampConfig fsExists targetFile =
        [ConfigAction.removeConfigCall targetFile,
         ConfigAction.applyConfigCall ampConfig targetFile
           ("build-system/global-configs/" ++ ampConfig ++ "-config.json")
           true true]) := by
  unfold applyAmpConfig
  constructor <;> intro h <;> simp [h]

/-- Witness for C7: a world where `dist/amp.js` is absent skips the patch. -/
theorem applyAmpConfig_spec_witness :
    applyAmpConfig "prod" (fun _ => false) "dist/amp.js" = [] :=
  (applyAmpConfig_spec "prod" (fun _ => false) "dist/amp.js").1 rfl

/-- C8: `getConfig` applies overrides with fixed precedence — a set browser
override flag yields exactly that browser, otherwise a set Sauce flag (with
credentials present) yields the Sauce configuration, otherwise the default
configuration is returned unchanged. -/
theorem getConfig_precedence (kd : KarmaConf) (env : SauceEnv) (a : Argv) :
    (browserOverride a = true →
      getConfig kd env a = .ok {kd with browsers := [overrideBrowserName a]}) ∧
    (browserOverride a = false → (a.saucelabs || a.saucelabs_lite) = true →
      strTruthy env.sauceUsername = true →
      strTruthy env.sauceAccessKey = true →
      getConfig kd env a = .ok {kd with
        reporters := ["super-dots", "saucelabs", "karmaSimpleReporter"],
        browsers := sauceBrowsers a}) ∧
    (browserOverride a = false → (a.saucelabs || a.saucelabs_lite) = false →
      getConfig kd env a = .ok kd) := by
  refine ⟨?_, ?_, ?_⟩
  · intro h
    unfold getConfig overrideBrowserName
    by_cases h1 : a.safari
    · simp [h1]
    · by_cases h2 : a.firefox
      · simp [h1, h2]
      · by_cases h3 : a.edge
        · simp [h1, h2, h3]
        · have h4 : a.ie = true := by
            simpa [browserOverride, h1, h2, h3] using h
          simp [h1, h2, h3, h4]
  · intro h hs hu hk
    simp only [browserOverride, Bool.or_eq_false_iff] at h
    obtain ⟨⟨⟨h1, h2⟩, h3⟩, h4⟩ := h
    simp [getConfig, h1, h2, h3, h4, hs, hu, hk]
  · intro h hs
    simp only [browserOverride, Bool.or_eq_false_iff] at h
    obtain ⟨⟨⟨h1, h2⟩, h3⟩, h4⟩ := h
    simp [getConfig, h1, h2, h3, h4, hs]

/-- Witness for C8: `--safari` wins and selects exactly the one browser. -/
theorem getConfig_precedence_witness :
    getConfig kd0 {} {safari := true} =
      .ok {kd0 with browsers := [overrideBrowserName {safari := true}]} :=
  (getConfig_precedence kd0 {} {safari := true}).1 rfl

/-- C5: with a Sauce flag set and no browser override, a missing
`SAUCE_USERNAME` makes `getConfig` throw an error naming it, and with
`SAUCE_USERNAME` present a missing `SAUCE_ACCESS_KEY` makes it throw an
error naming that variable; in both cases no configuration is returned. -/
theorem getConfig_missing_env (kd : KarmaConf) (env : SauceEnv) (a : Argv) :
    a.safari = false → a.firefox = false → a.edge = false → a.ie = false →
    (a.saucelabs || a.saucelabs_lite) = true →
    (env.sauceUsername = none →
      getConfig kd env a = .error "Missing SAUCE_USERNAME Env variable") ∧
    (strTruthy env.sauceUsername = true → env.sauceAccessKey = none →
      getConfig kd env a = .error "Missing SAUCE_ACCESS_KEY Env variable") := by
  intro h1 h2 h3 h4 h5
  constructor
  · intro hu
    simp [getConfig, h1, h2, h3, h4, h5, hu, strTruthy_none]
  · intro hu hk
    simp [getConfig, h1, h2, h3, h4, h5, hu, hk, strTruthy_none]

/-- Witness for C5: `--saucelabs` with an empty environment throws on the
missing `SAUCE_USERNAME`. -/
theorem getConfig_missing_env_witness :
    getConfig kd0 {} {saucelabs := true} =
      .error "Missing SAUCE_USERNAME Env variable" :=
  (getConfig_missing_env kd0 {} {saucelabs := true}
    rfl rfl rfl rfl rfl).1 rfl

/-- C2 counterexample: at the concrete invocation `--saucelabs --safari`
(no `--integration`), the run does abort before Karma with the two red
error lines, but `process.exit()` is called with no argument, so the exit
status is `0` — not the non-zero status the claim asserts. -/
theorem saucelabs_without_integration_exit_zero :
    runTestsSelect ext0 0 {saucelabs := true, safari := true} =
      RunOutcome.exited 0
        ["Only integration tests may be run on the full set of Sauce Labs browsers",
         "Use --saucelabs with --integration"] ∧
    ({saucelabs := true, safari := true} : Argv).saucelabs = true ∧
    ({saucelabs := true, safari := true} : Argv).integration = false :=
  ⟨rfl, rfl, rfl⟩

/-- C2 amended: with `--saucelabs` and without `--integration` the run always
aborts before the test runner is invoked — either `process.exit()` fires
after the two descriptive error lines, with the default exit status `0`, or
`getConfig` throws on a missing Sauce credential; Karma is never reached. -/
theorem saucelabs_without_integration_aborts (x : Ext) (r : Rat) (a : Argv)
    (hs : a.saucelabs = true) (hi : a.integration = false) :
    runTestsSelect x r a =
        RunOutcome.exited 0
          ["Only integration tests may be run on the full set of Sauce Labs browsers",
           "Use --saucelabs with --integration"] ∨
      runTestsSelect x r a =
        RunOutcome.threw "Missing SAUCE_USERNAME Env variable" ∨
      runTestsSelect x r a =
        RunOutcome.threw "Missing SAUCE_ACCESS_KEY Env variable" := by
  unfold runTestsSelect getConfig
  by_cases h1 : a.safari
  · left; simp [h1, hs, hi]
  · by_cases h2 : a.firefox
    · left; simp [h1, h2, hs, hi]
    · by_cases h3 : a.edge
      · left; simp [h1, h2, h3, hs, hi]
      · by_cases h4 : a.ie
        · left; simp [h1, h2, h3, h4, hs, hi]
        · by_cases hu : strTruthy x.env.sauceUsername
          · by_cases hk : strTruthy x.env.sauceAccessKey
            · left; simp [h1, h2, h3, h4, hs, hi, hu, hk]
            · right; right; simp [h1, h2, h3, h4, hs, hi, hu, hk]
          · right; left; simp [h1, h2, h3, h4, hs, hi, hu]

/-- Witness for C2 amended at the concrete invocation `--saucelabs --safari`. -/
theorem saucelabs_without_integration_aborts_witness :
    runTestsSelect ext0 0 {saucelabs := true, safari := true} =
        RunOutcome.exited 0
          ["Only integration tests may be run on the full set of Sauce Labs browsers",
           "Use --saucelabs with --integration"] ∨
      runTestsSelect ext0 0 {saucelabs := true, safari := true} =
        RunOutcome.threw "Missing SAUCE_USERNAME Env variable" ∨
      runTestsSelect ext0 0 {saucelabs := true, safari := true} =
        RunOutcome.threw "Missing SAUCE_ACCESS_KEY Env variable" :=
  saucelabs_without_integration_aborts ext0 0
    {saucelabs := true, safari := true} rfl rfl

/-- C9 counterexample: on the empty globbed list — which does not contain
`test/_init_tests.js` — the splice at index `-1` removes nothing, so no
test file is dropped, against the claim's universal "one arbitrary test
file is silently dropped". -/
theorem dropInitTests_empty_counterexample :
    "test/_init_tests.js" ∉ ([] : List String) ∧
    dropInitTests [] = [] ∧
    ¬ (dropInitTests []).length + 1 = ([] : List String).length := by
  refine ⟨by decide, rfl, by decide⟩

/-- C9 amended: whenever `test/_init_tests.js` is absent from the (possibly
shuffled) globbed list, `indexOf` yields `-1` and the splice removes the
last element, so on every nonempty such list one test file is silently
dropped; the empty list is left unchanged. -/
theorem dropInitTests_absent (l : List String)
    (h : "test/_init_tests.js" ∉ l) :
    dropInitTests l = l.dropLast ∧
    (l ≠ [] → (dropInitTests l).length + 1 = l.length) := by
  have hidx : jsIndexOf l "test/_init_tests.js" = -1 := by
    unfold jsIndexOf
    have : l.findIdx? (fun y => y == "test/_init_tests.js") = none := by
      rw [List.findIdx?_eq_none_iff]
      intro x hx
      simp only [beq_eq_false_iff_ne, ne_eq]
      exact fun he => h (he ▸ hx)
    rw [this]
  have hmain : dropInitTests l = l.dropLast := by
    unfold dropInitTests jsSpliceRemoveOne
    rw [hidx]
    cases l with
    | nil => rfl
    | cons y ys =>
      have hs : (if (-1 : Int) < 0 then
          (max (((y :: ys).length : Int) + -1) 0).toNat
          else min (-1 : Int).toNat (y :: ys).length) = ys.length := by
        simp
      rw [hs]
      have hlen : (y :: ys).length = ys.length + 1 := rfl
      rw [List.dropLast_eq_take, hlen]
      simp [List.take_succ_cons, List.drop_eq_nil_of_le]
  refine ⟨hmain, fun hne => ?_⟩
  rw [hmain, List.length_dropLast]
  have : 0 < l.length := List.length_pos.mpr hne
  omega

/-- Witness for C9 amended at the concrete list `["a", "b"]`. -/
theorem dropInitTests_absent_witness :
    dropInitTests ["a", "b"] = (["a", "b"] : List String).dropLast ∧
    ((["a", "b"] : List String) ≠ [] →
      (dropInitTests ["a", "b"]).length + 1 =
        (["a", "b"] : List String).length) :=
  dropInitTests_absent ["a", "b"] (by decide)

/-- C10: when the caller passes `--seed=0`, the falsy check
`argv.seed || Math.random()` discards the supplied seed — the seed actually
used is the fresh `Math.random()` draw, exactly as when no seed was passed —
so two runs both requested with seed `0` use different seeds whenever their
random draws differ, and the run is not reproducible by passing seed `0`
again. -/
theorem seed_zero_discarded (a : Argv) (r1 r2 : Rat)
    (h : a.seed = some 0) :
    usedSeed a r1 = r1 ∧
    usedSeed a r1 = usedSeed {a with seed := none} r1 ∧
    (r1 ≠ r2 → usedSeed a r1 ≠ usedSeed a r2) := by
  unfold usedSeed jsOrRat
  rw [h]
  simp

/-- Witness for C10 with seed `0` and the concrete draws `3` and `7`. -/
theorem seed_zero_discarded_witness :
    usedSeed {seed := some 0} 3 = 3 ∧
    usedSeed {seed := some 0} 3 = usedSeed {seed := none} 3 ∧
    ((3 : Rat) ≠ 7 →
      usedSeed {seed := some 0} 3 ≠ usedSeed {seed := some 0} 7) :=
  seed_zero_discarded {seed := some 0} 3 7 rfl

/-- When configuration succeeds and the Sauce-Labs abort does not fire,
`runTestsSelect` reaches Karma with the selected files (Sauce smoke test
appended) and the selection log. -/
theorem runTestsSelect_ok (x : Ext) (r : Rat) (a : Argv) (c0 : KarmaConf)
    (hGc : getConfig x.karmaDefault x.env a = .ok c0)
    (hex : (a.saucelabs && !a.integration) = false) :
    runTestsSelect x r a =
      .ran {(fileSelection x r a (tweakConf a c0)).1 with
              files := sauceWrap x a (fileSelection x r a (tweakConf a c0)).2.1}
        (fileSelection x r a (tweakConf a c0)).2.2 := by
  unfold runTestsSelect
  rw [hGc]
  dsimp only
  rw [if_neg (by simp [hex])]

/-- Inversion: a run that reached Karma came from a successful configuration,
with the abort not firing, and its final configuration and log are those of
the file-selection step. -/
theorem runTestsSelect_ran_inv (x : Ext) (r : Rat) (a : Argv)
    (conf : KarmaConf) (lg : List String)
    (h : runTestsSelect x r a = .ran conf lg) :
    ∃ c0, getConfig x.karmaDefault x.env a = .ok c0 ∧
      (a.saucelabs && !a.integration) = false ∧
      conf = {(fileSelection x r a (tweakConf a c0)).1 with
                files := sauceWrap x a
                  (fileSelection x r a (tweakConf a c0)).2.1} ∧
      lg = (fileSelection x r a (tweakConf a c0)).2.2 := by
  cases hGc : getConfig x.karmaDefault x.env a with
  | error m =>
    unfold runTestsSelect at h
    rw [hGc] at h
    simp at h
  | ok c0 =>
    by_cases hex : (a.saucelabs && !a.integration) = true
    · unfold runTestsSelect at h
      rw [hGc] at h
      dsimp only at h
      rw [if_pos hex] at h
      simp at h
    · have hex' : (a.saucelabs && !a.integration) = false :=
        Bool.not_eq_true _ ▸ Bool.of_not_eq_true hex
      rw [runTestsSelect_ok x r a c0 hGc hex'] at h
      simp only [RunOutcome.ran.injEq] at h
      exact ⟨c0, rfl, hex', h.1.symm, h.2.symm⟩

/-- The selected file list is the one dictated by the active selection mode. -/
theorem fileSelection_files_eq (x : Ext) (r : Rat) (a : Argv)
    (c : KarmaConf) :
    (fileSelection x r a c).2.1 = modeFiles x r a (activeMode a) := by
  unfold fileSelection modeFiles activeMode
  by_cases h1 : strTruthy a.files = true
  · simp [h1]
  · by_cases h2 : a.integration = true
    · simp [h1, h2]
    · by_cases h3 : a.unit = true
      · simp [h1, h2, h3]
      · by_cases h4 : (a.randomize || a.glob || a.a4a) = true
        · simp [h1, h2, h3, h4]
        · simp [h1, h2, h3, h4]

/-- Of the five guarded mode conditions, exactly one is true. -/
theorem count_modes_one (b1 b2 b3 b4 : Bool) :
    ([b1, !b1 && b2, !b1 && !b2 && b3, !b1 && !b2 && !b3 && b4,
      !b1 && !b2 && !b3 && !b4].count true) = 1 := by
  cases b1 <;> cases b2 <;> cases b3 <;> cases b4 <;> rfl

/-- C3: whenever the run reaches Karma, the final test file list is the one
dictated by the single active selection mode — `--files`, else
`--integration`, else `--unit` (with the lab-safe subset under
`--saucelabs_lite`), else `--randomize`/`--glob`/`--a4a`, else the default
suite — and exactly one of those five guarded modes is active. -/
theorem selection_mode_determines_files (x : Ext) (r : Rat) (a : Argv)
    (conf : KarmaConf) (lg : List String)
    (h : runTestsSelect x r a = .ran conf lg) :
    conf.files = sauceWrap x a (modeFiles x r a (activeMode a)) ∧
    ([strTruthy a.files,
      !strTruthy a.files && a.integration,
      !strTruthy a.files && !a.integration && a.unit,
      !strTruthy a.files && !a.integration && !a.unit &&
        (a.randomize || a.glob || a.a4a),
      !strTruthy a.files && !a.integration && !a.unit &&
        !(a.randomize || a.glob || a.a4a)].count true) = 1 := by
  refine ⟨?_, count_modes_one _ _ _ _⟩
  obtain ⟨c0, hGc, hex, hconf, -⟩ := runTestsSelect_ran_inv x r a conf lg h
  rw [hconf]
  exact congrArg (sauceWrap x a)
    (fileSelection_files_eq x r a (tweakConf a c0))

/-- Witness for C3 at the default invocation (no flags). -/
theorem selection_mode_determines_files_witness :
    kd0.files = sauceWrap ext0 {} (modeFiles ext0 0 {} (activeMode {})) ∧
    ([strTruthy ({} : Argv).files,
      !strTruthy ({} : Argv).files && ({} : Argv).integration,
      !strTruthy ({} : Argv).files && !({} : Argv).integration &&
        ({} : Argv).unit,
      !strTruthy ({} : Argv).files && !({} : Argv).integration &&
        !({} : Argv).unit &&
        (({} : Argv).randomize || ({} : Argv).glob || ({} : Argv).a4a),
      !strTruthy ({} : Argv).files && !({} : Argv).integration &&
        !({} : Argv).unit &&
        !(({} : Argv).randomize || ({} : Argv).glob ||
          ({} : Argv).a4a)].count true) = 1 :=
  selection_mode_determines_files ext0 0 {} kd0 [] rfl

/-- C6: whenever a Sauce flag is set and the run reaches the file-assembly
step, the always-passing smoke test is appended after the files of whatever
selection mode was active. -/
theorem sauce_smoke_test_appended (x : Ext) (r : Rat) (a : Argv)
    (conf : KarmaConf) (lg : List String)
    (hs : (a.saucelabs || a.saucelabs_lite) = true)
    (h : runTestsSelect x r a = .ran conf lg) :
    conf.files = modeFiles x r a (activeMode a) ++ x.cfg.simpleTestPath := by
  obtain ⟨c0, hGc, hex, hconf, -⟩ := runTestsSelect_ran_inv x r a conf lg h
  rw [hconf]
  show sauceWrap x a (fileSelection x r a (tweakConf a c0)).2.1 = _
  unfold sauceWrap
  rw [if_pos hs, fileSelection_files_eq x r a (tweakConf a c0)]

/-- A `../config` instance with distinct path lists, for witnesses. -/
def cfgS : TestConfig :=
  { chaiAsPromised := ["test/chai-as-promised/chai-as-promised.js"],
    testPaths := ["test/t1.js", "test/t2.js"],
    simpleTestPath := ["test/_simple_test.js"] }

/-- An external world with Sauce credentials present. -/
def extS : Ext :=
  { karmaDefault := kd0, cfg := cfgS,
    env := { sauceUsername := some "user", sauceAccessKey := some "key" } }

/-- The configuration `--saucelabs_lite` produces in the world `extS`. -/
def confS : KarmaConf :=
  { browsers := ["SL_Safari_latest"],
    reporters := ["super-dots", "saucelabs", "karmaSimpleReporter"],
    files := ["test/chai-as-promised/chai-as-promised.js",
              "test/t1.js", "test/t2.js", "test/_simple_test.js"],
    singleRun := true, captureConsole := false }

/-- Witness for C6 at the concrete invocation `--saucelabs_lite`. -/
theorem sauce_smoke_test_appended_witness :
    confS.files =
      modeFiles extS 0 {saucelabs_lite := true}
          (activeMode {saucelabs_lite := true}) ++
        extS.cfg.simpleTestPath :=
  sauce_smoke_test_appended extS 0 {saucelabs_lite := true} confS []
    rfl rfl

/-- A seed-sensitive instance of the external shuffle function (the
`shuffle-seed` library produces different orderings for different seeds):
seed `1` keeps the order, any other seed reverses it. -/
def cexShuffle (l : List String) (s : Rat) : List String :=
  if s = 1 then l else l.reverse

/-- An external world for the randomize branch: one basic test path whose
glob expands to two test files, shuffled by `cexShuffle`. -/
def extC1 : Ext :=
  { karmaDefault := kd0, cfg := { basicTestPaths := ["test/*.js"] },
    globSync := fun _ => ["test/a.js", "test/b.js"], shuffle := cexShuffle }

/-- The invocation `--randomize --seed=0`. -/
def aC1 : Argv := { randomize := true, seed := some 0 }

/-- C1 counterexample: with the caller-supplied seed `0` and the same input
file list, two invocations that differ only in the `Math.random()` draw
(`1` versus `2`) produce different file orderings — the falsy check of line
255 replaces seed `0` by the fresh draw, so the ordering is not a function
of the supplied seed. -/
theorem seeded_shuffle_seed_zero_counterexample :
    aC1.seed = some 0 ∧
    filesOf (runTestsSelect extC1 1 aC1) = ["test/a.js"] ∧
    filesOf (runTestsSelect extC1 2 aC1) = ["test/b.js"] ∧
    filesOf (runTestsSelect extC1 1 aC1) ≠
      filesOf (runTestsSelect extC1 2 aC1) :=
  ⟨rfl, rfl, rfl, by decide⟩

/-- In the randomize branch the emitted log is the seed echo. -/
theorem fileSelection_log (x : Ext) (r : Rat) (a : Argv) (c : KarmaConf)
    (hf : strTruthy a.files = false) (hi : a.integration = false)
    (hu : a.unit = false) (hra : (a.randomize || a.a4a) = true) :
    (fileSelection x r a c).2.2 = seedLog (usedSeed a r) := by
  have hor : (a.randomize || a.glob || a.a4a) = true := by
    have hra' := hra
    rw [Bool.or_eq_true] at hra'
    rcases hra' with h | h
    · simp [h]
    · simp [h]
  unfold fileSelection
  rw [if_neg (by simp [hf]), if_neg (by simp [hi]), if_neg (by simp [hu]),
    if_pos hor]
  dsimp only
  unfold randomizedTestFiles
  rw [if_pos hra]

/-- C1 amended: for every nonzero caller-supplied seed, the outcome of the
run — in particular the randomized file ordering — is independent of the
`Math.random()` draw, so two invocations with the same seed and the same
input file list coincide; and whenever the seeded shuffle is reached, the
seed used is echoed to the log in a rerun instruction.  (For seed `0` the
falsy check discards the supplied seed; see the counterexample.) -/
theorem seeded_shuffle_deterministic (x : Ext) (a : Argv) (s : Rat)
    (r1 r2 : Rat) (h1 : a.seed = some s) (h2 : s ≠ 0) :
    runTestsSelect x r1 a = runTestsSelect x r2 a ∧
    (reachesShuffle x a = true →
      ("To rerun same ordering, append --seed=" ++ toString s ++
        " to your invocation of gulp test") ∈
        logOf (runTestsSelect x r1 a)) := by
  have hseed : ∀ r : Rat, usedSeed a r = s := by
    intro r
    unfold usedSeed jsOrRat
    rw [h1]
    simp [h2]
  have hrand : ∀ r : Rat, randomizedTestFiles x r a =
      randomizedTestFiles x r1 a := by
    intro r
    unfold randomizedTestFiles
    rw [hseed r, hseed r1]
  have hfs : ∀ c, fileSelection x r2 a c = fileSelection x r1 a c := by
    intro c
    unfold fileSelection
    rw [hrand r2]
  constructor
  · unfold runTestsSelect
    cases hGc : getConfig x.karmaDefault x.env a with
    | error m => rfl
    | ok c0 =>
      dsimp only
      rw [hfs]
  · intro hr
    simp only [reachesShuffle, Bool.and_eq_true, Bool.not_eq_true'] at hr
    obtain ⟨⟨⟨⟨⟨hgc, hex⟩, hf⟩, hi⟩, hu⟩, hra⟩ := hr
    cases hGc : getConfig x.karmaDefault x.env a with
    | error m =>
      rw [hGc] at hgc
      simp [Except.toBool] at hgc
    | ok c0 =>
      rw [runTestsSelect_ok x r1 a c0 hGc hex]
      show _ ∈ (fileSelection x r1 a (tweakConf a c0)).2.2
      rw [fileSelection_log x r1 a (tweakConf a c0) hf hi hu hra,
        hseed r1]
      unfold seedLog
      simp

/-- Witness for C1 amended: `--randomize --seed=5` in the world `extC1`,
with draws `1` and `2`. -/
theorem seeded_shuffle_deterministic_witness :
    runTestsSelect extC1 1 {randomize := true, seed := some 5} =
      runTestsSelect extC1 2 {randomize := true, seed := some 5} ∧
    (reachesShuffle extC1 {randomize := true, seed := some 5} = true →
      ("To rerun same ordering, append --seed=" ++ toString (5 : Rat) ++
        " to your invocation of gulp test") ∈
        logOf (runTestsSelect extC1 1 {randomize := true, seed := some 5})) :=
  seeded_shuffle_deterministic extC1 {randomize := true, seed := some 5} 5 1 2
    rfl (by decide)

end RuntimeTest
